import Mathlib

/-!
Verification of the MagicSlides AI core against its specification.

The development shallowly embeds, in Lean, the code of:
  * `src/app/lib/gemini-client.ts`  (generation orchestrator: `generateSlides`, `parseResponse`),
  * `src/unnamed/part_001` = `lib/ppt-generator.ts`  (export pipeline: `generatePresentation`,
    `createSimpleSlide`; `src/app/lib/oldppt-generator.ts` renders slides identically),
  * `src/app/lib/chat-history.ts`  (session store),
  * `src/app/components/SlidePreview.tsx`  (`handleSave`).

Modelling conventions:
  * JavaScript `Error` values are modelled by their message `String`; fallible code returns
    `Except String _` or `Option _`.
  * The external collaborators (the Gemini network call, the pptxgenjs `write`/`writeFile`
    calls, `localStorage`) are opaque: their outcomes are passed in as explicit arguments.
  * `Date` values are modelled by their serialized stamp (a `String` for the store,
    a `Nat` is never needed); numeric slide-layout coordinates use `ℚ` (the JS numbers
    involved are all exact decimals, so no floating-point rounding is lost).
  * String lengths and indices are modelled per Unicode codepoint; the JS originals count
    UTF-16 units, which agrees on all the (ASCII) strings appearing in the claims.
-/

namespace MagicSlides

/-! ## JSON values and a strict parser, modelling JavaScript `JSON.parse` -/

/-- A parsed JSON value.  Numbers keep their raw lexeme: none of the verified code ever
uses the numeric value of a parsed number, only its shape. -/
inductive Json where
  | null
  | bool (b : Bool)
  | num (raw : String)
  | str (s : String)
  | arr (elems : List Json)
  | obj (fields : List (String × Json))

/-- JSON interelement whitespace: exactly space, tab, line feed, carriage return. -/
def skipJsonWs : List Char → List Char
  | [] => []
  | c :: rest =>
    if c = ' ' ∨ c = '\t' ∨ c = '\n' ∨ c = '\r' then skipJsonWs rest else c :: rest

def hexDigitVal (c : Char) : Option Nat :=
  if '0' ≤ c ∧ c ≤ '9' then some (c.toNat - '0'.toNat)
  else if 'a' ≤ c ∧ c ≤ 'f' then some (c.toNat - 'a'.toNat + 10)
  else if 'A' ≤ c ∧ c ≤ 'F' then some (c.toNat - 'A'.toNat + 10)
  else none

def hex4 (h1 h2 h3 h4 : Char) : Option Nat := do
  let a ← hexDigitVal h1
  let b ← hexDigitVal h2
  let c ← hexDigitVal h3
  let d ← hexDigitVal h4
  pure (((a * 16 + b) * 16 + c) * 16 + d)

/-- Parses the body of a JSON string after the opening quote, returning the decoded
characters and the remaining input.  JavaScript strings may hold lone UTF-16 surrogates,
which a Lean `Char` cannot; lone surrogates decode to U+FFFD here.  No string relevant to
a claim contains surrogate escapes. -/
def parseStringBody : Nat → List Char → Option (List Char × List Char)
  | 0, _ => none
  | fuel + 1, cs =>
    match cs with
    | [] => none
    | '"' :: rest => some ([], rest)
    | '\\' :: esc =>
      match esc with
      | '"' :: r => (parseStringBody fuel r).map (fun p => ('"' :: p.1, p.2))
      | '\\' :: r => (parseStringBody fuel r).map (fun p => ('\\' :: p.1, p.2))
      | '/' :: r => (parseStringBody fuel r).map (fun p => ('/' :: p.1, p.2))
      | 'b' :: r => (parseStringBody fuel r).map (fun p => ('\x08' :: p.1, p.2))
      | 'f' :: r => (parseStringBody fuel r).map (fun p => ('\x0c' :: p.1, p.2))
      | 'n' :: r => (parseStringBody fuel r).map (fun p => ('\n' :: p.1, p.2))
      | 'r' :: r => (parseStringBody fuel r).map (fun p => ('\r' :: p.1, p.2))
      | 't' :: r => (parseStringBody fuel r).map (fun p => ('\t' :: p.1, p.2))
      | 'u' :: h1 :: h2 :: h3 :: h4 :: r =>
        match hex4 h1 h2 h3 h4 with
        | none => none
        | some n =>
          if 0xD800 ≤ n ∧ n ≤ 0xDBFF then
            match r with
            | '\\' :: 'u' :: g1 :: g2 :: g3 :: g4 :: r2 =>
              match hex4 g1 g2 g3 g4 with
              | some m =>
                if 0xDC00 ≤ m ∧ m ≤ 0xDFFF then
                  (parseStringBody fuel r2).map (fun p =>
                    (Char.ofNat (0x10000 + (n - 0xD800) * 0x400 + (m - 0xDC00)) :: p.1, p.2))
                else (parseStringBody fuel r).map (fun p => ('�' :: p.1, p.2))
              | none => (parseStringBody fuel r).map (fun p => ('�' :: p.1, p.2))
            | _ => (parseStringBody fuel r).map (fun p => ('�' :: p.1, p.2))
          else if 0xDC00 ≤ n ∧ n ≤ 0xDFFF then
            (parseStringBody fuel r).map (fun p => ('�' :: p.1, p.2))
          else
            (parseStringBody fuel r).map (fun p => (Char.ofNat n :: p.1, p.2))
      | _ => none
    | c :: rest =>
      if c.toNat < 0x20 then none
      else (parseStringBody fuel rest).map (fun p => (c :: p.1, p.2))

def spanDigits : List Char → List Char × List Char
  | [] => ([], [])
  | c :: rest =>
    if c.isDigit then
      let p := spanDigits rest
      (c :: p.1, p.2)
    else ([], c :: rest)

/-- Fractional part: `(\.[0-9]+)?`. -/
def parseFracPart (cs : List Char) : Option (List Char × List Char) :=
  match cs with
  | '.' :: r =>
    match spanDigits r with
    | ([], _) => none
    | (ds, rest) => some ('.' :: ds, rest)
  | _ => some ([], cs)

/-- Exponent part: `([eE][+-]?[0-9]+)?`. -/
def parseExpPart (cs : List Char) : Option (List Char × List Char) :=
  match cs with
  | [] => some ([], [])
  | c :: r =>
    if c = 'e' ∨ c = 'E' then
      let sr : List Char × List Char :=
        match r with
        | '+' :: rr => (['+'], rr)
        | '-' :: rr => (['-'], rr)
        | _ => ([], r)
      match spanDigits sr.2 with
      | ([], _) => none
      | (ds, rest) => some (c :: (sr.1 ++ ds), rest)
    else some ([], c :: r)

/-- Strict JSON number: `-?(0|[1-9][0-9]*)(\.[0-9]+)?([eE][+-]?[0-9]+)?`. -/
def parseNumberLex (cs : List Char) : Option (List Char × List Char) :=
  let sp : List Char × List Char :=
    match cs with
    | '-' :: r => (['-'], r)
    | _ => ([], cs)
  match sp.2 with
  | [] => none
  | '0' :: r =>
    match parseFracPart r with
    | none => none
    | some (fr, r2) =>
      match parseExpPart r2 with
      | none => none
      | some (ex, r3) => some (sp.1 ++ '0' :: (fr ++ ex), r3)
  | c :: r =>
    if c.isDigit then
      match spanDigits r with
      | (ds, r1) =>
        match parseFracPart r1 with
        | none => none
        | some (fr, r2) =>
          match parseExpPart r2 with
          | none => none
          | some (ex, r3) => some (sp.1 ++ c :: (ds ++ fr ++ ex), r3)
    else none

/-- Comma-separated array elements up to the closing bracket, given a value parser. -/
def parseElems (pv : List Char → Option (Json × List Char)) :
    Nat → List Char → Option (List Json × List Char)
  | 0, _ => none
  | fuel + 1, cs =>
    match pv cs with
    | none => none
    | some (v, rest) =>
      match skipJsonWs rest with
      | ',' :: r2 => (parseElems pv fuel r2).map (fun p => (v :: p.1, p.2))
      | ']' :: r2 => some ([v], r2)
      | _ => none

/-- Comma-separated object members up to the closing brace, given a value parser. -/
def parseMembers (pv : List Char → Option (Json × List Char)) :
    Nat → List Char → Option (List (String × Json) × List Char)
  | 0, _ => none
  | fuel + 1, cs =>
    match skipJsonWs cs with
    | '"' :: rest =>
      match parseStringBody (rest.length + 1) rest with
      | none => none
      | some (keyChars, r1) =>
        match skipJsonWs r1 with
        | ':' :: r2 =>
          match pv r2 with
          | none => none
          | some (v, r3) =>
            match skipJsonWs r3 with
            | ',' :: r4 => (parseMembers pv fuel r4).map (fun p =>
                ((String.mk keyChars, v) :: p.1, p.2))
            | '}' :: r4 => some ([(String.mk keyChars, v)], r4)
            | _ => none
        | _ => none
    | _ => none

/-- Recursive-descent JSON value parser (fuel-indexed so that it is structurally
recursive and evaluates inside the kernel). -/
def parseValue : Nat → List Char → Option (Json × List Char)
  | 0, _ => none
  | fuel + 1, cs0 =>
    match skipJsonWs cs0 with
    | 't' :: 'r' :: 'u' :: 'e' :: rest => some (.bool true, rest)
    | 'f' :: 'a' :: 'l' :: 's' :: 'e' :: rest => some (.bool false, rest)
    | 'n' :: 'u' :: 'l' :: 'l' :: rest => some (.null, rest)
    | '"' :: rest =>
      (parseStringBody (rest.length + 1) rest).map (fun p => (.str (String.mk p.1), p.2))
    | '[' :: rest =>
      (match skipJsonWs rest with
       | ']' :: r2 => some (.arr [], r2)
       | r2 => (parseElems (parseValue fuel) (r2.length + 1) r2).map
           (fun p => (.arr p.1, p.2)))
    | '{' :: rest =>
      (match skipJsonWs rest with
       | '}' :: r2 => some (.obj [], r2)
       | r2 => (parseMembers (parseValue fuel) (r2.length + 1) r2).map
           (fun p => (.obj p.1, p.2)))
    | cs => (parseNumberLex cs).map (fun p => (.num (String.mk p.1), p.2))

/-- Model of `JSON.parse`: parse one value, then require only whitespace to remain.
The error strings stand for the thrown `SyntaxError`; every caller in the verified code
discards the message. -/
def jsonParse (s : String) : Except String Json :=
  match parseValue (s.length + 1) s.data with
  | none => Except.error "Unexpected token in JSON"
  | some (v, rest) =>
    match skipJsonWs rest with
    | [] => Except.ok v
    | _ => Except.error "Unexpected non-whitespace character after JSON data"

/-- JavaScript property read `j[key]` on a parsed value: only objects yield a value
(duplicate keys resolve to the last occurrence, as in `JSON.parse`); every other
receiver yields `undefined`, modelled as `none`. -/
def jsGet (j : Json) (key : String) : Option Json :=
  match j with
  | .obj fields => ((fields.filter (fun p => p.1 == key)).getLast?).map (fun p => p.2)
  | _ => none

/-! ## Generation orchestrator — `src/app/lib/gemini-client.ts`

`generateSlides` sends a prompt to the Gemini collaborator and parses the textual reply.
The network call is opaque; its outcome (reply text, or the thrown error's message) is
the `upstream` argument. -/

/-- Character class `\s` of JavaScript regular expressions (also the set removed by
`String.prototype.trim`). -/
def jsRegexWs (c : Char) : Bool :=
  c = ' ' ∨ c = '\t' ∨ c = '\n' ∨ c = '\r' ∨ c = '\x0b' ∨ c = '\x0c' ∨
    c.toNat = 0xa0 ∨ c.toNat = 0x1680 ∨ (0x2000 ≤ c.toNat ∧ c.toNat ≤ 0x200a) ∨
    c.toNat = 0x2028 ∨ c.toNat = 0x2029 ∨ c.toNat = 0x202f ∨ c.toNat = 0x205f ∨
    c.toNat = 0x3000 ∨ c.toNat = 0xfeff

/-- Length of the maximal leading run of `\s` characters. -/
def wsRunLength : List Char → Nat
  | [] => 0
  | c :: rest => if jsRegexWs c then wsRunLength rest + 1 else 0

/-- Model of `text.replace(/\x60\x60\x60json\s*|\s*\x60\x60\x60/g, '')` from
`parseResponse` (the fence marker is three backticks).  At each position the first
alternative (fence-plus-json tag followed by whitespace) is tried, then the second
(whitespace followed by a fence); on failure the scan advances one character, exactly
as the RegExp engine does (backtracking inside `\s*` can never rescue the second
alternative, because a shorter whitespace run still leaves a whitespace character,
not a backtick, at the match point). -/
def stripFences : Nat → List Char → List Char
  | 0, cs => cs
  | fuel + 1, cs =>
    match cs with
    | [] => []
    | c :: rest =>
      if ("```json".data).isPrefixOf cs then
        let afterTag := cs.drop 7
        stripFences fuel (afterTag.drop (wsRunLength afterTag))
      else
        let k := wsRunLength cs
        if ("```".data).isPrefixOf (cs.drop k) then
          stripFences fuel ((cs.drop k).drop 3)
        else
          c :: stripFences fuel rest

/-- Model of JavaScript `String.prototype.trim`. -/
def jsTrim (cs : List Char) : List Char :=
  ((cs.dropWhile jsRegexWs).reverse.dropWhile jsRegexWs).reverse

/-- Model of `cleanedText.match(/\{[\s\S]*\}/)`: the match, when it exists, runs from
the first opening brace to the last closing brace after it (the starred class is greedy
and matches every character).  Returns the matched span. -/
def extractJson (cs : List Char) : Option (List Char) :=
  match cs.findIdx? (fun c => c == '{') with
  | none => none
  | some i =>
    let tail := cs.drop i
    match tail.reverse.findIdx? (fun c => c == '}') with
    | none => none
    | some jrev => some (tail.take (tail.length - 1 - jrev + 1))

/-- The retry message thrown by `generateSlides`' catch-all (the `GenerationError`
of the specification). -/
def generationErrorMessage : String :=
  "Failed to generate presentation content. Please try again."

/-- The retry message thrown by `parseResponse`'s catch (the `ParseError` of the
specification). -/
def parseErrorMessage : String :=
  "Failed to parse AI response. Please try again."

/-- Body of the `try` block of `parseResponse` (gemini-client.ts lines 116-133):
strip code fences, trim, locate the JSON span, `JSON.parse` it, and require a `slides`
array.  The error strings are the inner thrown messages; reading `.slides` off a
non-object (including `null`, where JavaScript throws a `TypeError`) also lands in
the enclosing catch, hence is an `Except.error` here.  The slides elements are
returned unvalidated, exactly as in the source. -/
def parseResponseInner (text : String) : Except String (List Json) :=
  let cleaned := jsTrim (stripFences text.data.length text.data)
  match extractJson cleaned with
  | none => Except.error "No JSON found in response"
  | some jsonChars =>
    match jsonParse (String.mk jsonChars) with
    | Except.error e => Except.error e
    | Except.ok parsed =>
      match parsed with
      | Json.obj fields =>
        match jsGet (Json.obj fields) "slides" with
        | some (Json.arr xs) => Except.ok xs
        | _ => Except.error "Invalid slides format"
      | _ => Except.error "Invalid slides format"

/-- `parseResponse` (gemini-client.ts lines 115-138): any failure of the body is
caught and rethrown as the `ParseError` retry message. -/
def parseResponse (text : String) : Except String (List Json) :=
  match parseResponseInner text with
  | Except.ok xs => Except.ok xs
  | Except.error _ => Except.error parseErrorMessage

/-- `generateSlides` (gemini-client.ts lines 62-78).  `upstream` is the outcome of the
awaited Gemini call (`Except.ok text` on success, `Except.error msg` when the call
throws).  Both an upstream failure and a `parseResponse` throw land in the surrounding
catch, which rethrows the `GenerationError` retry message. -/
def generateSlides (upstream : Except String String) : Except String (List Json) :=
  match upstream with
  | Except.error _ => Except.error generationErrorMessage
  | Except.ok text =>
    match parseResponse text with
    | Except.ok xs => Except.ok xs
    | Except.error _ => Except.error generationErrorMessage

/-! ## Slide document model

`Slide` as declared in `gemini-client.ts` / `chat-history.ts`.  The TypeScript layout
annotation (`'TITLE' | 'TITLE_CONTENT' | 'SECTION_HEADER'`) is erased at runtime and
the renderer's `switch` has a default branch handling any other string, so the layout
is modelled as an arbitrary `String`. -/
structure Slide where
  title : String
  content : List String
  layout : String
deriving DecidableEq

/-! ## Export pipeline — `src/unnamed/part_001` (`lib/ppt-generator.ts`)

`generatePresentation(slides, forPreview, format, onProgress)` drives pptxgenjs and
reports progress.  The pptxgenjs `write`/`writeFile` calls are the only awaited
collaborator operations that can fail at runtime; their outcomes are the
`writeBlobResult` / `writeFileResult` arguments.  The emitted progress events are
returned as a list (in emission order) together with the function's result
(`Except.error` models the rethrown exception). -/

/-- The `step` discriminator of `GenerationProgress`. -/
inductive GenStep where
  | initializing
  | creating_slides
  | finalizing
  | complete
  | error
deriving DecidableEq

/-- One progress callback payload (`GenerationProgress` in ppt-generator.ts). -/
structure GenerationProgress where
  step : GenStep
  message : String
  percentage : ℚ
  currentSlide : Option Nat
  totalSlides : Option Nat
deriving DecidableEq

/-- The requested artifact format. -/
inductive PptFormat where
  | pptx
  | pdf
deriving DecidableEq

def initializingEvent : GenerationProgress :=
  { step := GenStep.initializing, message := "Initializing presentation...",
    percentage := 10, currentSlide := none, totalSlides := none }

/-- The `creating_slides` event for the 0-based slide `i` of `n`
(ppt-generator.ts lines 44-50). -/
def creatingEvent (i n : Nat) : GenerationProgress :=
  { step := GenStep.creating_slides,
    message := "Creating slide " ++ toString (i + 1) ++ " of " ++ toString n ++ "...",
    percentage := 30 + ((i : ℚ) / (n : ℚ)) * 50,
    currentSlide := some (i + 1), totalSlides := some n }

def finalizingEvent : GenerationProgress :=
  { step := GenStep.finalizing, message := "Finalizing presentation...",
    percentage := 90, currentSlide := none, totalSlides := none }

def completeEvent (msg : String) : GenerationProgress :=
  { step := GenStep.complete, message := msg, percentage := 100,
    currentSlide := none, totalSlides := none }

def errorTerminalEvent : GenerationProgress :=
  { step := GenStep.error, message := "Error generating presentation. Please try again.",
    percentage := 0, currentSlide := none, totalSlides := none }

/-- `generatePresentation` (ppt-generator.ts lines 13-133).  The events before the
write are always `initializing`, one `creating_slides` per slide, `finalizing`.
Then, by mode:
  * preview: `pptx.write` to a blob; on success a `complete` event and the object URL;
  * download pdf: `pptx.write` to a blob; on failure, fall back to `pptx.writeFile`
    (the pptx path) with a fallback-noting completion message; only when the fallback
    also throws does the outer catch emit the terminal `error` event and rethrow;
  * download pptx: `pptx.writeFile`; the outer catch handles its failure.
There is no special-casing of an empty `slides` array anywhere in the source. -/
def generatePresentation (slides : List Slide) (forPreview : Bool) (format : PptFormat)
    (writeBlobResult : Except String Unit) (writeFileResult : Except String Unit) :
    List GenerationProgress × Except String String :=
  let n := slides.length
  let pre := initializingEvent :: ((List.range n).map (fun i => creatingEvent i n))
      ++ [finalizingEvent]
  if forPreview then
    match writeBlobResult with
    | Except.ok _ => (pre ++ [completeEvent "Presentation ready!"], Except.ok "blob-url")
    | Except.error e => (pre ++ [errorTerminalEvent], Except.error e)
  else
    match format with
    | PptFormat.pdf =>
      match writeBlobResult with
      | Except.ok _ =>
        (pre ++ [completeEvent "PDF download started!"], Except.ok "download-started")
      | Except.error _ =>
        match writeFileResult with
        | Except.ok _ =>
          (pre ++ [completeEvent "PPTX downloaded (PDF not available)"],
            Except.ok "download-started")
        | Except.error e => (pre ++ [errorTerminalEvent], Except.error e)
    | PptFormat.pptx =>
      match writeFileResult with
      | Except.ok _ =>
        (pre ++ [completeEvent "PPTX download started!"], Except.ok "download-started")
      | Except.error e => (pre ++ [errorTerminalEvent], Except.error e)

/-! ### Per-slide rendering — `createSimpleSlide`

`createSimpleSlide` (ppt-generator.ts lines 149-248; byte-identical in
`oldppt-generator.ts` lines 120-219) issues `slide.addText` calls and possibly sets a
background colour.  A rendered slide is modelled as the background and the ordered
list of issued text boxes. -/

/-- One `slide.addText(text, options)` call.  Options that are never passed stay at
the pptxgenjs defaults: `align := none` means the library default (left), `color :=
none` the default colour. -/
structure TextBox where
  text : String
  x : ℚ
  y : ℚ
  w : ℚ
  h : ℚ
  fontSize : Nat
  bold : Bool
  color : Option String
  align : Option String
  fontFace : String
  bullet : Bool
deriving DecidableEq

structure RenderedSlide where
  background : Option String
  texts : List TextBox
deriving DecidableEq

/-- `createSimpleSlide(pptx, slide, slideData, index)`.  The bullet rows of the default
branch carry the literal prefix found in the source file (a mojibake-encoded bullet
character). -/
def createSimpleSlide (slideData : Slide) (index : Nat) : RenderedSlide :=
  if slideData.layout = "TITLE" then
    { background := none,
      texts := { text := slideData.title, x := 1/2, y := 2, w := 9, h := 2,
                 fontSize := 44, bold := true, color := some "2C5AA0",
                 align := some "center", fontFace := "Arial", bullet := false } ::
        (match slideData.content with
         | [] => []
         | c :: _ =>
           [{ text := c, x := 1/2, y := 4, w := 9, h := 1, fontSize := 24,
              bold := false, color := some "666666", align := some "center",
              fontFace := "Arial", bullet := false }]) }
  else if slideData.layout = "SECTION_HEADER" then
    { background := some "2C5AA0",
      texts := { text := slideData.title, x := 1/2, y := 3, w := 9, h := 3/2,
                 fontSize := 36, bold := true, color := some "FFFFFF",
                 align := some "center", fontFace := "Arial", bullet := false } ::
        (match slideData.content with
         | [] => []
         | c :: _ =>
           [{ text := c, x := 1, y := 9/2, w := 8, h := 1, fontSize := 18,
              bold := false, color := some "E6E6E6", align := some "center",
              fontFace := "Arial", bullet := false }]) }
  else
    { background := none,
      texts := { text := slideData.title, x := 1/2, y := 1/2, w := 9, h := 1,
                 fontSize := 28, bold := true, color := some "2C5AA0", align := none,
                 fontFace := "Arial", bullet := false } ::
        (slideData.content.enum.map (fun p =>
          { text := "â€¢ " ++ p.2, x := 1, y := 9/5 + (p.1 : ℚ) * (4/5), w := 8,
            h := 3/5, fontSize := 16, bold := false, color := none, align := none,
            fontFace := "Arial", bullet := true })) ++
        [{ text := toString (index + 1), x := 17/2, y := 34/5, w := 1, h := 2/5,
           fontSize := 12, bold := false, color := some "666666",
           align := some "right", fontFace := "Arial", bullet := false }] }

/-- The deck built by the `for` loop of `generatePresentation` (one
`createSimpleSlide` call per slide, in order). -/
def renderDeck (slides : List Slide) : List RenderedSlide :=
  slides.enum.map (fun p => createSimpleSlide p.2 p.1)

/-! ### Observables used by the progress-protocol claims -/

/-- The claim-relevant projection of a progress event: step, percentage, 1-based
current slide, total slide count. -/
def progressSig (e : GenerationProgress) : GenStep × ℚ × Option Nat × Option Nat :=
  (e.step, e.percentage, e.currentSlide, e.totalSlides)

/-- The per-slide signature demanded by the specification's progress protocol. -/
def creatingSig (n i : Nat) : GenStep × ℚ × Option Nat × Option Nat :=
  (GenStep.creating_slides, 30 + ((i : ℚ) / (n : ℚ)) * 50, some (i + 1), some n)

/-- The event-signature sequence of a successful export of `n` slides. -/
def successSigs (n : Nat) : List (GenStep × ℚ × Option Nat × Option Nat) :=
  (GenStep.initializing, (10 : ℚ), none, none) ::
    (((List.range n).map (creatingSig n)) ++
      [(GenStep.finalizing, (90 : ℚ), none, none),
       (GenStep.complete, (100 : ℚ), none, none)])

/-- The event-signature sequence of a failed export of `n` slides: the terminal
`error` event replaces `complete`. -/
def failureSigs (n : Nat) : List (GenStep × ℚ × Option Nat × Option Nat) :=
  (GenStep.initializing, (10 : ℚ), none, none) ::
    (((List.range n).map (creatingSig n)) ++
      [(GenStep.finalizing, (90 : ℚ), none, none),
       (GenStep.error, (0 : ℚ), none, none)])

/-- The claim-relevant projection of a rendered text box: its text, position, horizontal
alignment, and bullet flag. -/
def textSig (t : TextBox) : String × ℚ × ℚ × Option String × Bool :=
  (t.text, t.x, t.y, t.align, t.bullet)

/-! ## Session store — `src/app/lib/chat-history.ts`

The store operations are modelled over the revived in-memory session collection
(`StoreState`); `saveSessions` persists the whole collection, so a `StoreState`
transformation captures a read-modify-write cycle.  The `localStorage` parsing
boundary of `getSessions` is modelled separately below (`loadSessions` /
`getSessions`), which is what the corrupt-storage claim is about.

`Date` values are carried as their serialized stamp; `new Date()` at a mutation site
is the explicit `now` argument.  `generateId()` (timestamp plus random suffix) is the
explicit `newId` argument. -/

structure ChatMessage where
  id : String
  text : String
  isUser : Bool
  timestamp : String
  slides : Option (List Slide)
deriving DecidableEq

structure ChatSession where
  id : String
  title : String
  messages : List ChatMessage
  createdAt : String
  updatedAt : String
deriving DecidableEq

/-- The store's in-memory view: the persisted collection plus the process-local
`currentSessionId` pointer. -/
structure StoreState where
  sessions : List ChatSession
  currentSessionId : Option String
deriving DecidableEq

/-- `String.prototype.split` with a one-character separator, over character lists
(splitting "a,,b" on ',' yields ["a", "", "b"]; the empty string yields [""]). -/
def splitOnChar (sep : Char) : List Char → List (List Char)
  | [] => [[]]
  | c :: rest =>
    if c = sep then [] :: splitOnChar sep rest
    else
      match splitOnChar sep rest with
      | [] => [[c]]
      | h :: t => (c :: h) :: t

/-- `Array.prototype.join` with a one-character separator. -/
def joinWithChar (sep : Char) : List (List Char) → List Char
  | [] => []
  | [w] => w
  | w :: rest => w ++ sep :: joinWithChar sep rest

/-- `generateSessionTitle` (chat-history.ts lines 145-148):
`firstMessage.split(' ').slice(0, 5).join(' ')`, then truncate to 30 characters with a
trailing ellipsis when longer.  `split(' ')` splits on single space characters only:
consecutive spaces contribute empty tokens (which count toward the five and are
rejoined, reproducing the space run), and no other whitespace separates. -/
def generateSessionTitle (firstMessage : String) : String :=
  let words := joinWithChar ' ' ((splitOnChar ' ' firstMessage.data).take 5)
  if 30 < words.length then String.mk (words.take 30 ++ "...".data)
  else String.mk words

/-- The title the claim text prescribes: the first five whitespace-separated words
joined by single spaces, truncated the same way.  Stated from the claim's words, for
comparison with `generateSessionTitle` above. -/
def claimedWhitespaceWordsTitle (firstMessage : String) : String :=
  let words := joinWithChar ' '
    (((firstMessage.data.splitOnP (fun c => c.isWhitespace)).filter
        (fun w => !w.isEmpty)).take 5)
  if 30 < words.length then String.mk (words.take 30 ++ "...".data)
  else String.mk words

/-- `createNewSession` (chat-history.ts lines 60-75): a fresh session is prepended to
the collection, saved, and becomes current. -/
def createNewSession (st : StoreState) (title : String) (newId : String) (now : String) :
    StoreState :=
  { sessions := { id := newId, title := title, messages := [], createdAt := now,
                  updatedAt := now } :: st.sessions,
    currentSessionId := some newId }

/-- JavaScript falsiness of the `string | null` session pointer: `null` and the empty
string are falsy, every other string is truthy. -/
def falsyPointer : Option String → Bool
  | none => true
  | some s => s == ""

/-- `addMessageToCurrentSession` (chat-history.ts lines 88-108).  The guard
`if (!this.currentSessionId)` tests JavaScript truthiness, so both a null pointer and
the falsy empty-string pointer cause a session titled from the message to be created
first (and to become current).  The pointer is then looked up with `findIndex`; when
it dangles (index `-1`) nothing further happens — no append, no save.  Otherwise the
message (with the optional slides attached) is pushed, the session's `updatedAt` is
bumped, and the title is (re)computed exactly when the pushed message is the
session's first user message. -/
def addMessageToCurrentSession (st : StoreState) (message : ChatMessage)
    (slides : Option (List Slide)) (newId : String) (now : String) : StoreState :=
  let st1 := if falsyPointer st.currentSessionId then
      createNewSession st (generateSessionTitle message.text) newId now
    else st
  match st1.currentSessionId with
  | none => st1
  | some cid =>
    match st1.sessions.findIdx? (fun s => s.id == cid) with
    | none => st1
    | some i =>
      match st1.sessions[i]? with
      | none => st1
      | some sess =>
        let messageWithSlides := match slides with
          | some sl => { message with slides := some sl }
          | none => message
        let newMessages := sess.messages ++ [messageWithSlides]
        let newTitle :=
          if message.isUser ∧ (newMessages.filter (fun m => m.isUser)).length = 1 then
            generateSessionTitle message.text
          else sess.title
        let updated := { sess with messages := newMessages, updatedAt := now, title := newTitle }
        { st1 with sessions := st1.sessions.set i updated }

/-- `updateCurrentSessionSlides` (chat-history.ts lines 110-124) — the
`attachDocumentToLastAssistantMessage` of the specification.  Nothing happens when the
pointer is null or dangling, when the current session has no messages, or when its
last message is user-authored; otherwise the last message's `slides` field is replaced
and `updatedAt` bumped. -/
def updateCurrentSessionSlides (st : StoreState) (slides : List Slide) (now : String) :
    StoreState :=
  match st.currentSessionId with
  | none => st
  | some cid =>
    match st.sessions.findIdx? (fun s => s.id == cid) with
    | none => st
    | some i =>
      match st.sessions[i]? with
      | none => st
      | some sess =>
        match sess.messages.getLast? with
        | none => st
        | some lastMsg =>
          if lastMsg.isUser then st
          else
            let patched := { lastMsg with slides := some slides }
            let updated := { sess with messages := sess.messages.dropLast ++ [patched], updatedAt := now }
            { st with sessions := st.sessions.set i updated }

/-! ### The storage-parsing boundary of `getSessions` (chat-history.ts lines 40-58)

`getSessions` reads the persisted blob and revives it:
`JSON.parse(stored).map(session => ({...session, createdAt: new Date(...),
updatedAt: new Date(...), messages: session.messages.map(msg => ({...msg,
timestamp: new Date(...)}))}))`, all inside a try/catch whose catch logs and
returns `[]`.

The revival throws exactly when `JSON.parse` throws, when the parsed value is not an
array (`.map` is not a function), when a session element is `null` (property read
throws), or when its `messages` is missing or not an array; `new Date(x)` itself never
throws, whatever `x` is.  A revived element keeps its raw parsed shape plus the
restamped dates. -/

/-- A session element as revived by `getSessions`: the raw parsed value together with
the restamped `createdAt`/`updatedAt` and the revived messages (raw value plus
restamped `timestamp`). -/
structure LoadedSession where
  raw : Json
  createdAt : String
  updatedAt : String
  messages : List (Json × String)

/-- `new Date(x)` never throws; the stamp of a serialized ISO string is the string
itself, and every non-string revives to some (possibly invalid) date value, which no
verified code path inspects further. -/
def dateOfJson (j : Option Json) : String :=
  match j with
  | some (Json.str s) => s
  | some (Json.num raw) => "epoch-ms:" ++ raw
  | _ => "Invalid Date"

/-- `List.mapM` over `Except`, written out so that it evaluates in the kernel. -/
def mapExcept (f : α → Except String β) : List α → Except String (List β)
  | [] => Except.ok []
  | a :: rest =>
    match f a with
    | Except.error e => Except.error e
    | Except.ok b =>
      match mapExcept f rest with
      | Except.error e => Except.error e
      | Except.ok bs => Except.ok (b :: bs)

/-- The body of `getSessions`' try block: parse and revive.  An `Except.error` models
a thrown exception reaching the catch. -/
def loadSessions (stored : String) : Except String (List LoadedSession) :=
  match jsonParse stored with
  | Except.error e => Except.error e
  | Except.ok (Json.arr sessions) =>
    mapExcept (fun s =>
      match s with
      | Json.null => Except.error "TypeError: cannot read properties of null"
      | _ =>
        match jsGet s "messages" with
        | some (Json.arr msgs) =>
          match mapExcept (fun m =>
            match m with
            | Json.null => Except.error "TypeError: cannot read properties of null"
            | _ => Except.ok (m, dateOfJson (jsGet m "timestamp"))) msgs with
          | Except.error e => Except.error e
          | Except.ok revived =>
            Except.ok { raw := s, createdAt := dateOfJson (jsGet s "createdAt"),
                        updatedAt := dateOfJson (jsGet s "updatedAt"),
                        messages := revived }
        | _ => Except.error "TypeError: session.messages.map is not a function"
      ) sessions
  | Except.ok _ => Except.error "TypeError: sessions.map is not a function"

/-- `getSessions` (chat-history.ts lines 40-58).  `stored` is
`localStorage.getItem(STORAGE_KEY)` (`none` models the `null` miss).  Every revival
failure is caught, logged, and degraded to the empty collection; the function never
throws. -/
def getSessions (stored : Option String) : List LoadedSession :=
  match stored with
  | none => []
  | some s =>
    match loadSessions s with
    | Except.ok sessions => sessions
    | Except.error _ => []

/-! ## In-place slide editing — `src/app/components/SlidePreview.tsx`

`handleSave` (lines 32-42) rebuilds the slide list with the current slide's content
replaced by the textarea lines that survive `filter(line => line.trim())` — i.e. the
lines whose trim is non-empty.  When `currentSlideIndex` is out of range
(`currentSlide` undefined) nothing happens. -/
def handleSave (slides : List Slide) (currentSlideIndex : Nat) (editContent : String) :
    List Slide :=
  match slides[currentSlideIndex]? with
  | none => slides
  | some currentSlide =>
    let kept := (splitOnChar '\n' editContent.data).filter
      (fun line => !(jsTrim line).isEmpty)
    slides.set currentSlideIndex { currentSlide with content := kept.map String.mk }

/-! ## Theorems -/

/-- C1 — the claim as stated is false on the code: `parseResponse`'s distinct
`ParseError` retry message never reaches a caller of `generateSlides`, because
`parseResponse` is invoked inside `generateSlides`' own try/catch, whose catch-all
rethrows the `GenerationError` retry message.  At the concrete upstream reply
"hello there" (which contains no JSON object), `generateSlides` fails with the
`GenerationError` message, which differs from the `ParseError` message the claim
requires. -/
theorem c1_counterexample :
    generateSlides (Except.ok "hello there") = Except.error generationErrorMessage
    ∧ generationErrorMessage ≠ parseErrorMessage :=
  ⟨rfl, by decide⟩

/-- C1 (amended) — for every upstream response text from which no valid slide document
can be extracted (no JSON object present, invalid JSON, or a parsed value lacking a
`slides` array — exactly the failures of `parseResponseInner`), the inner
`parseResponse` fails with the `ParseError` retry message, which is distinct from the
`GenerationError` one; but `generateSlides`' surrounding catch rewraps the failure, so
`generateSlides` fails with the `GenerationError` retry message (as it also does when
the upstream call itself fails). -/
theorem c1_parse_failure_wrapped (text : String) (e : String) (upstreamFailure : String)
    (h : parseResponseInner text = Except.error e) :
    parseResponse text = Except.error parseErrorMessage
    ∧ generateSlides (Except.ok text) = Except.error generationErrorMessage
    ∧ generateSlides (Except.error upstreamFailure) = Except.error generationErrorMessage
    ∧ parseErrorMessage ≠ generationErrorMessage := by
  have hp : parseResponse text = Except.error parseErrorMessage := by
    unfold parseResponse
    rw [h]
  refine ⟨hp, ?_, rfl, by decide⟩
  unfold generateSlides
  simp [hp]

/-- C1 (amended), witness at the reply "no json here" and upstream failure "boom". -/
theorem c1_parse_failure_wrapped_witness :
    parseResponse "no json here" = Except.error parseErrorMessage
    ∧ generateSlides (Except.ok "no json here") = Except.error generationErrorMessage
    ∧ generateSlides (Except.error "boom") = Except.error generationErrorMessage
    ∧ parseErrorMessage ≠ generationErrorMessage :=
  c1_parse_failure_wrapped "no json here" "No JSON found in response" "boom" rfl

/-- C2 — the claim as stated is false on the code: `generatePresentation` has no
empty-document check, so with zero slides and a succeeding rendering collaborator it
emits `initializing`, `finalizing`, `complete` and returns successfully rather than
propagating a `RenderError`. -/
theorem c2_counterexample :
    (generatePresentation [] false PptFormat.pptx (Except.ok ()) (Except.ok ())).2
        = Except.ok "download-started"
    ∧ (generatePresentation [] false PptFormat.pptx
          (Except.ok ()) (Except.ok ())).1.map progressSig
        = [(GenStep.initializing, (10 : ℚ), none, none),
           (GenStep.finalizing, (90 : ℚ), none, none),
           (GenStep.complete, (100 : ℚ), none, none)] :=
  ⟨rfl, rfl⟩

/-- C2 (amended) — exporting a document with no slides is not special-cased: in every
mode, when the rendering collaborator's writes succeed the export completes
successfully (events `initializing 10%`, `finalizing 90%`, `complete 100%`), and a
RenderError propagates to the caller — after the terminal `error 0%` event — exactly
when the rendering collaborator itself fails. -/
theorem c2_empty_document (forPreview : Bool) (format : PptFormat)
    (wb wf : Except String Unit) (e : String) :
    ((generatePresentation [] forPreview format wb wf).2.isOk = true →
      (generatePresentation [] forPreview format wb wf).1.map progressSig
        = [(GenStep.initializing, (10 : ℚ), none, none),
           (GenStep.finalizing, (90 : ℚ), none, none),
           (GenStep.complete, (100 : ℚ), none, none)])
    ∧ ((generatePresentation [] forPreview format wb wf).2 = Except.error e →
      (generatePresentation [] forPreview format wb wf).1.map progressSig
        = [(GenStep.initializing, (10 : ℚ), none, none),
           (GenStep.finalizing, (90 : ℚ), none, none),
           (GenStep.error, (0 : ℚ), none, none)])
    ∧ (wb = Except.ok () → wf = Except.ok () →
      (generatePresentation [] forPreview format wb wf).2.isOk = true) := by
  cases forPreview <;> cases format <;> cases wb <;> cases wf <;>
    simp [generatePresentation, progressSig, initializingEvent, finalizingEvent,
      completeEvent, errorTerminalEvent, Except.isOk, Except.toBool]

/-- C2 (amended), witness: the pptx download of the empty document with succeeding
writes emits exactly initializing, finalizing, complete. -/
theorem c2_empty_document_witness :
    (generatePresentation [] false PptFormat.pptx (Except.ok ()) (Except.ok ())).1.map
        progressSig
      = [(GenStep.initializing, (10 : ℚ), none, none),
         (GenStep.finalizing, (90 : ℚ), none, none),
         (GenStep.complete, (100 : ℚ), none, none)] :=
  (c2_empty_document false PptFormat.pptx (Except.ok ()) (Except.ok ()) "e").1 rfl

/-- The percentage sequence of a successful export is non-decreasing:
`10, 30 + (0/n)*50, …, 30 + ((n-1)/n)*50, 90, 100`. -/
theorem percs_chain (n : Nat) :
    List.Chain' (fun a b => a ≤ b)
      ((10 : ℚ) :: (((List.range n).map
          (fun (i : ℕ) => (30 : ℚ) + ((i : ℚ) / (n : ℚ)) * 50)) ++
        [(90 : ℚ), (100 : ℚ)])) := by
  cases n with
  | zero =>
    simp [List.chain'_cons, List.chain'_singleton]
    norm_num
  | succ m =>
    have hn : (0 : ℚ) < ((m + 1 : ℕ) : ℚ) := by positivity
    have hmap : List.Chain' (fun a b : ℚ => a ≤ b)
        ((List.range (m + 1)).map
          (fun (i : ℕ) => (30 : ℚ) + ((i : ℚ) / (((m + 1 : ℕ)) : ℚ)) * 50)) := by
      refine (List.chain'_map _).mpr ?_
      rw [List.chain'_range_succ]
      intro k hk
      have hle : ((k : ℚ)) ≤ (((k + 1 : ℕ)) : ℚ) := by exact_mod_cast Nat.le_succ k
      gcongr
    rw [List.chain'_cons']
    constructor
    · intro y hy
      rw [List.range_succ_eq_map] at hy
      simp at hy
      rw [← hy]
      norm_num
    · rw [List.chain'_append]
      refine ⟨hmap, ?_, ?_⟩
      · simp [List.chain'_cons, List.chain'_singleton]
        norm_num
      · intro x hx y hy
        rw [List.range_succ, List.map_append] at hx
        simp only [List.map_cons, List.map_nil] at hx
        rw [List.getLast?_concat] at hx
        simp only [Option.mem_def, Option.some.injEq] at hx
        simp only [List.head?_cons, Option.mem_def, Option.some.injEq] at hy
        subst hx
        subst hy
        have h1 : ((m : ℚ)) / (((m + 1 : ℕ)) : ℚ) ≤ 1 := by
          rw [div_le_one hn]
          exact_mod_cast Nat.le_succ m
        have h2 := mul_le_mul_of_nonneg_right h1 (by norm_num : (0 : ℚ) ≤ 50)
        linarith

/-- Signature of the event list of a successful export. -/
theorem success_sigs_eq (n : Nat) (msg : String) :
    ((initializingEvent :: (((List.range n).map (fun i => creatingEvent i n)) ++
        [finalizingEvent])) ++ [completeEvent msg]).map progressSig
      = successSigs n := by
  simp [initializingEvent, creatingEvent, finalizingEvent, completeEvent, progressSig,
    successSigs, creatingSig, List.map_map, Function.comp]

/-- Signature of the event list of a failed export. -/
theorem failure_sigs_eq (n : Nat) :
    ((initializingEvent :: (((List.range n).map (fun i => creatingEvent i n)) ++
        [finalizingEvent])) ++ [errorTerminalEvent]).map progressSig
      = failureSigs n := by
  simp [initializingEvent, creatingEvent, finalizingEvent, errorTerminalEvent,
    progressSig, failureSigs, creatingSig, List.map_map, Function.comp]

/-- Percentages of the event list of a successful export. -/
theorem success_percentages (n : Nat) (msg : String) :
    ((initializingEvent :: (((List.range n).map (fun i => creatingEvent i n)) ++
        [finalizingEvent])) ++ [completeEvent msg]).map (fun ev => ev.percentage)
      = (10 : ℚ) :: (((List.range n).map
          (fun (i : ℕ) => (30 : ℚ) + ((i : ℚ) / (n : ℚ)) * 50)) ++
        [(90 : ℚ), (100 : ℚ)]) := by
  simp [initializingEvent, creatingEvent, finalizingEvent, completeEvent,
    List.map_map, Function.comp]

/-- C3 — progress protocol of `generatePresentation`: a successful export of `n`
slides emits, in order, `initializing` at 10, one `creating_slides` per slide at
`30 + (index/n)*50` carrying the 1-based current index and the total count,
`finalizing` at 90 and `complete` at 100, and the emitted percentage sequence is
monotonically non-decreasing; a failed export emits the same prefix followed by a
single terminal `error` event at percentage 0 instead of `complete`. -/
theorem c3_progress_protocol (slides : List Slide) (forPreview : Bool)
    (format : PptFormat) (wb wf : Except String Unit) :
    ((generatePresentation slides forPreview format wb wf).2.isOk = true →
      (generatePresentation slides forPreview format wb wf).1.map progressSig
          = successSigs slides.length
      ∧ List.Chain' (fun a b => a ≤ b)
          ((generatePresentation slides forPreview format wb wf).1.map
            (fun ev => ev.percentage)))
    ∧ ((generatePresentation slides forPreview format wb wf).2.isOk = false →
      (generatePresentation slides forPreview format wb wf).1.map progressSig
          = failureSigs slides.length) := by
  have hsucc : ∀ msg : String,
      ((initializingEvent :: (((List.range slides.length).map
          (fun i => creatingEvent i slides.length)) ++ [finalizingEvent])) ++
        [completeEvent msg]).map progressSig = successSigs slides.length
      ∧ List.Chain' (fun a b => a ≤ b)
          (((initializingEvent :: (((List.range slides.length).map
              (fun i => creatingEvent i slides.length)) ++ [finalizingEvent])) ++
            [completeEvent msg]).map (fun ev => ev.percentage)) := by
    intro msg
    refine ⟨success_sigs_eq _ _, ?_⟩
    rw [success_percentages]
    exact percs_chain slides.length
  cases forPreview <;> cases format <;> cases wb <;> cases wf <;>
    first
    | exact ⟨fun _ => hsucc _, fun h => by
        simp [generatePresentation, Except.isOk, Except.toBool] at h⟩
    | exact ⟨fun h => by
        simp [generatePresentation, Except.isOk, Except.toBool] at h,
        fun _ => failure_sigs_eq slides.length⟩

/-- C3, witness: a successful one-slide preview export emits the claimed ordered,
monotone event sequence. -/
theorem c3_progress_protocol_witness :
    (generatePresentation [{ title := "A", content := ["x"], layout := "TITLE" }]
          true PptFormat.pptx (Except.ok ()) (Except.ok ())).1.map progressSig
        = successSigs 1
    ∧ List.Chain' (fun a b => a ≤ b)
        ((generatePresentation [{ title := "A", content := ["x"], layout := "TITLE" }]
            true PptFormat.pptx (Except.ok ()) (Except.ok ())).1.map
          (fun ev => ev.percentage)) :=
  (c3_progress_protocol [{ title := "A", content := ["x"], layout := "TITLE" }]
    true PptFormat.pptx (Except.ok ()) (Except.ok ())).1 rfl

/-- C4 — in download mode with the pdf (secondary) format, when the pdf-path write
fails while the pptx-path write succeeds, `generatePresentation` still succeeds: it
falls back to the pptx artifact and ends with a `complete` event at 100 whose message
notes the fallback. -/
theorem c4_pdf_fallback (slides : List Slide) (e : String) :
    (generatePresentation slides false PptFormat.pdf (Except.error e)
        (Except.ok ())).2 = Except.ok "download-started"
    ∧ (generatePresentation slides false PptFormat.pdf (Except.error e)
        (Except.ok ())).1.getLast?
      = some (completeEvent "PPTX downloaded (PDF not available)") := by
  constructor
  · rfl
  · show ((initializingEvent :: (((List.range slides.length).map
        (fun i => creatingEvent i slides.length)) ++ [finalizingEvent])) ++
          [completeEvent "PPTX downloaded (PDF not available)"]).getLast? = _
    rw [List.getLast?_concat]

/-- C6 — per-slide rendering rules of `createSimpleSlide`, for every slide and 0-based
index `i`: a TITLE-layout slide renders the centred title and at most the first content
line as a centred subtitle; a SECTION_HEADER-layout slide renders a coloured
background, the centred title, and at most the first content line as a centred
caption; every other layout value (including `TITLE_CONTENT` and any unrecognized
string — the function is total, so an unrecognized layout is never an error) renders
the title top-left (x = y = 0.5, default alignment), every content line in order as a
bulleted row stacked vertically, and the 1-based slide number `i + 1` bottom-right. -/
theorem c6_slide_rendering (s : Slide) (i : Nat) :
    (s.layout = "TITLE" →
      (createSimpleSlide s i).background = none
      ∧ (createSimpleSlide s i).texts.map textSig
          = (s.title, (1/2 : ℚ), (2 : ℚ), some "center", false) ::
            (s.content.take 1).map
              (fun c => (c, (1/2 : ℚ), (4 : ℚ), some "center", false)))
    ∧ (s.layout = "SECTION_HEADER" →
      (createSimpleSlide s i).background = some "2C5AA0"
      ∧ (createSimpleSlide s i).texts.map textSig
          = (s.title, (1/2 : ℚ), (3 : ℚ), some "center", false) ::
            (s.content.take 1).map
              (fun c => (c, (1 : ℚ), (9/2 : ℚ), some "center", false)))
    ∧ (s.layout ≠ "TITLE" → s.layout ≠ "SECTION_HEADER" →
      (createSimpleSlide s i).background = none
      ∧ (createSimpleSlide s i).texts.map textSig
          = (s.title, (1/2 : ℚ), (1/2 : ℚ), none, false) ::
            ((s.content.enum.map (fun p =>
              ("â€¢ " ++ p.2, (1 : ℚ), (9/5 : ℚ) + (p.1 : ℚ) * (4/5 : ℚ), none, true))) ++
            [(toString (i + 1), (17/2 : ℚ), (34/5 : ℚ), some "right", false)])) := by
  refine ⟨fun h => ?_, fun h => ?_, fun h1 h2 => ?_⟩
  · unfold createSimpleSlide
    rw [if_pos h]
    cases s.content <;> simp [textSig]
  · unfold createSimpleSlide
    rw [if_neg (by rw [h]; decide), if_pos h]
    cases s.content <;> simp [textSig]
  · unfold createSimpleSlide
    rw [if_neg h1, if_neg h2]
    simp [textSig, List.map_map, Function.comp]

/-- C6, witness at an unrecognized layout string, a two-line content, and index 3. -/
theorem c6_slide_rendering_witness :
    (createSimpleSlide { title := "T", content := ["a", "b"], layout := "WEIRD" }
        3).background = none
    ∧ (createSimpleSlide { title := "T", content := ["a", "b"], layout := "WEIRD" }
        3).texts.map textSig
      = ("T", (1/2 : ℚ), (1/2 : ℚ), none, false) ::
        ((([("a" : String), "b"].enum.map (fun p =>
          ("â€¢ " ++ p.2, (1 : ℚ), (9/5 : ℚ) + (p.1 : ℚ) * (4/5 : ℚ), none, true))) ++
        [(toString (3 + 1), (17/2 : ℚ), (34/5 : ℚ), some "right", false)])) :=
  (c6_slide_rendering { title := "T", content := ["a", "b"], layout := "WEIRD" } 3).2.2
    (by decide) (by decide)

/-- C5 — the claim as stated is false on the code: the title derivation splits on
single space characters (`split(' ')`), not on whitespace, and rejoins the first five
tokens (empty tokens included).  Appending the first user message "a  b c d e"
(a double space after "a") yields the stored title "a  b c d" — four words and a
preserved double space — whereas the claim's first-five-whitespace-separated-words
rule demands "a b c d e". -/
theorem c5_counterexample :
    ((addMessageToCurrentSession
        (StoreState.mk [⟨"s1", "New Presentation", [], "T0", "T0"⟩] (some "s1"))
        ⟨"m1", "a  b c d e", true, "T1", none⟩
        none "nid" "T1").sessions.map (fun s => s.title)) = ["a  b c d"]
    ∧ claimedWhitespaceWordsTitle "a  b c d e" = "a b c d e"
    ∧ ("a  b c d" : String) ≠ "a b c d e" :=
  ⟨by decide, by decide, by decide⟩

/-- C5 (amended) — when a user message is appended to the current session (the
pointer holding a truthy — that is, nonempty — id, as every id produced by the store
is), the session title is set to `generateSessionTitle` of the message text — the prefix of the text up
to its fifth space-separated token (split on single space characters, so runs of
spaces contribute empty tokens that are rejoined and non-space whitespace never
separates), truncated to its first 30 characters with a trailing ellipsis when longer
— exactly when the session had no prior user message; on subsequent user messages the
title is left unchanged. -/
theorem c5_title_derivation (st : StoreState) (message : ChatMessage)
    (slides : Option (List Slide)) (newId now cid : String) (i : Nat)
    (sess : ChatSession)
    (hptr : st.currentSessionId = some cid)
    (hcid : cid ≠ "")
    (hfind : st.sessions.findIdx? (fun s => s.id == cid) = some i)
    (hget : st.sessions[i]? = some sess)
    (huser : message.isUser = true) :
    ∃ sess',
      (addMessageToCurrentSession st message slides newId now).sessions[i]? = some sess'
      ∧ sess'.title = (if (sess.messages.filter (fun m => m.isUser)).length = 0
          then generateSessionTitle message.text else sess.title)
      ∧ sess'.messages = sess.messages ++
          [(match slides with
            | some sl => { message with slides := some sl }
            | none => message)]
      ∧ sess'.updatedAt = now := by
  have hlt : i < st.sessions.length := by
    by_contra hge
    rw [List.getElem?_eq_none (Nat.le_of_not_lt hge)] at hget
    exact Option.noConfusion hget
  have hfalsy : falsyPointer (some cid) = false := by
    simp [falsyPointer, hcid]
  unfold addMessageToCurrentSession
  simp only [hptr, hfalsy, Bool.false_eq_true, if_false, hfind, hget]
  refine ⟨_, List.getElem?_set_eq_of_lt _ hlt, ?_, rfl, rfl⟩
  cases slides with
  | none =>
    simp [huser, List.filter_append]
  | some sl =>
    simp [huser, List.filter_append]

/-- C5 (amended), witness: the first user message
"aaaaaa bbbbbb cccccc dddddd eeeeee ffffff gg hh" (8 words) sets the title of the
fresh current session; with no prior user message the if-condition selects
`generateSessionTitle`, whose five-word prefix exceeds 30 characters and is truncated
with an ellipsis. -/
theorem c5_title_derivation_witness :
    (∃ sess',
      (addMessageToCurrentSession
          (StoreState.mk [⟨"s1", "New Presentation", [], "T0", "T0"⟩] (some "s1"))
          ⟨"m1", "aaaaaa bbbbbb cccccc dddddd eeeeee ffffff gg hh", true, "T1", none⟩
          none "nid" "T1").sessions[0]? = some sess'
      ∧ sess'.title = (if (([] : List ChatMessage).filter (fun m => m.isUser)).length = 0
          then generateSessionTitle "aaaaaa bbbbbb cccccc dddddd eeeeee ffffff gg hh"
          else "New Presentation")
      ∧ sess'.messages = ([] : List ChatMessage) ++
          [⟨"m1", "aaaaaa bbbbbb cccccc dddddd eeeeee ffffff gg hh", true, "T1", none⟩]
      ∧ sess'.updatedAt = "T1")
    ∧ generateSessionTitle "aaaaaa bbbbbb cccccc dddddd eeeeee ffffff gg hh"
        = "aaaaaa bbbbbb cccccc dddddd ee..." :=
  ⟨c5_title_derivation
      (StoreState.mk [⟨"s1", "New Presentation", [], "T0", "T0"⟩] (some "s1"))
      ⟨"m1", "aaaaaa bbbbbb cccccc dddddd eeeeee ffffff gg hh", true, "T1", none⟩
      none "nid" "T1" "s1" 0
      ⟨"s1", "New Presentation", [], "T0", "T0"⟩
      rfl (by decide) (by decide) rfl rfl,
    by decide⟩

/-- C7 — `updateCurrentSessionSlides` (the specification's
`attachDocumentToLastAssistantMessage`) leaves the stored collection entirely
unchanged — no slides replacement, no `updatedAt` bump, no save — when no current
session exists, when the pointer dangles, when the current session has no messages,
or when its last message is user-authored; only when the last message is
assistant-authored does it replace that message's `slides` field and bump
`updatedAt`, leaving every other session and every other field untouched. -/
theorem c7_attach_document_no_op (st : StoreState) (sl : List Slide) (now : String) :
    (st.currentSessionId = none → updateCurrentSessionSlides st sl now = st)
    ∧ (∀ cid, st.currentSessionId = some cid →
        (st.sessions.findIdx? (fun s => s.id == cid) = none →
          updateCurrentSessionSlides st sl now = st)
        ∧ (∀ i sess, st.sessions.findIdx? (fun s => s.id == cid) = some i →
            st.sessions[i]? = some sess →
            (sess.messages.getLast? = none → updateCurrentSessionSlides st sl now = st)
            ∧ (∀ lastMsg, sess.messages.getLast? = some lastMsg →
                (lastMsg.isUser = true → updateCurrentSessionSlides st sl now = st)
                ∧ (lastMsg.isUser = false →
                    updateCurrentSessionSlides st sl now
                      = ⟨st.sessions.set i ⟨sess.id, sess.title,
                          sess.messages.dropLast ++ [⟨lastMsg.id, lastMsg.text,
                            lastMsg.isUser, lastMsg.timestamp, some sl⟩],
                          sess.createdAt, now⟩,
                         st.currentSessionId⟩)))) := by
  refine ⟨fun h0 => ?_, fun cid hptr => ⟨fun hnone => ?_, fun i sess hfind hget =>
    ⟨fun hempty => ?_, fun lastMsg hlast => ⟨fun huser => ?_, fun hasst => ?_⟩⟩⟩⟩
  · unfold updateCurrentSessionSlides
    rw [h0]
  · unfold updateCurrentSessionSlides
    simp only [hptr, hnone]
  · unfold updateCurrentSessionSlides
    simp only [hptr, hfind, hget, hempty]
  · unfold updateCurrentSessionSlides
    simp only [hptr, hfind, hget, hlast, huser, if_true]
  · unfold updateCurrentSessionSlides
    simp only [hptr, hfind, hget, hlast, hasst, Bool.false_eq_true, if_false]

/-- C7, witness: on a session whose last (only) message is user-authored, the
operation is a no-op. -/
theorem c7_attach_document_no_op_witness :
    updateCurrentSessionSlides
        (StoreState.mk [⟨"s1", "t", [⟨"m1", "hi", true, "T1", none⟩], "T0", "T0"⟩]
          (some "s1"))
        [⟨"A", [], "TITLE"⟩] "T2"
      = StoreState.mk [⟨"s1", "t", [⟨"m1", "hi", true, "T1", none⟩], "T0", "T0"⟩]
          (some "s1") :=
  ((((c7_attach_document_no_op
      (StoreState.mk [⟨"s1", "t", [⟨"m1", "hi", true, "T1", none⟩], "T0", "T0"⟩]
        (some "s1"))
      [⟨"A", [], "TITLE"⟩] "T2").2 "s1" rfl).2 0
      ⟨"s1", "t", [⟨"m1", "hi", true, "T1", none⟩], "T0", "T0"⟩ (by decide) rfl).2
    ⟨"m1", "hi", true, "T1", none⟩ rfl).1 rfl

/-- C9 — the claim as stated is false on the code: the guard
`if (!this.currentSessionId)` tests JavaScript truthiness, and the empty string is
falsy.  Setting the pointer to `""` via `setCurrentSession` dangles (no stored session
has the empty id), yet `addMessageToCurrentSession` then behaves exactly as for a null
pointer: it creates a replacement session titled from the message and appends the
message to it — the collection grows by one and the message is not dropped,
contradicting both the claimed silent no-op and the claim's final clause that a
replacement session is created only when the pointer is null. -/
theorem c9_counterexample :
    ((addMessageToCurrentSession
        (StoreState.mk [⟨"s1", "t", [], "T0", "T0"⟩] (some ""))
        ⟨"m1", "hello", true, "T1", none⟩ none "nid" "T1").sessions.length = 2)
    ∧ ((addMessageToCurrentSession
        (StoreState.mk [⟨"s1", "t", [], "T0", "T0"⟩] (some ""))
        ⟨"m1", "hello", true, "T1", none⟩ none "nid"
        "T1").sessions.head?.map (fun s => s.messages)
      = some [⟨"m1", "hello", true, "T1", none⟩])
    ∧ (∀ s ∈ (StoreState.mk [⟨"s1", "t", [], "T0", "T0"⟩] (some "")).sessions,
        s.id ≠ "") :=
  ⟨by decide, by decide, by decide⟩

/-- C9 (amended) — when the current-session pointer is set to a truthy (nonempty) id
that matches no stored session, `addMessageToCurrentSession` is a silent no-op: no
session is created, the message is dropped, and the stored collection is unchanged.
Because the guard is a JavaScript truthiness test, the falsy empty-string pointer
behaves exactly like the null pointer instead: a replacement session is created and
the collection grows by one.  (Every id the store itself produces is nonempty, so the
no-op covers every store-producible dangling pointer.) -/
theorem c9_dangling_pointer_no_op (st : StoreState) (message : ChatMessage)
    (slides : Option (List Slide)) (newId now : String) :
    (∀ cid, cid ≠ "" → st.currentSessionId = some cid →
      (∀ s ∈ st.sessions, s.id ≠ cid) →
      addMessageToCurrentSession st message slides newId now = st)
    ∧ (falsyPointer st.currentSessionId = true →
      (addMessageToCurrentSession st message slides newId now).sessions.length
        = st.sessions.length + 1) := by
  constructor
  · intro cid hcid hptr hmiss
    have hfalsy : falsyPointer (some cid) = false := by
      simp [falsyPointer, hcid]
    have hfind : st.sessions.findIdx? (fun s => s.id == cid) = none := by
      rw [List.findIdx?_eq_none_iff]
      intro x hx
      simpa using hmiss x hx
    unfold addMessageToCurrentSession
    simp only [hptr, hfalsy, Bool.false_eq_true, if_false, hfind]
  · intro h0
    unfold addMessageToCurrentSession
    simp only [h0, if_true, createNewSession, List.findIdx?_cons, beq_self_eq_true,
      if_pos, List.getElem?_cons_zero, List.length_set, List.length_cons]

/-- C9 (amended), witness: a pointer dangling at the truthy id "ghost" over a
one-session store drops the appended message and leaves the store unchanged, while
the falsy empty-string pointer grows the collection by one. -/
theorem c9_dangling_pointer_no_op_witness :
    (addMessageToCurrentSession
        (StoreState.mk [⟨"s1", "t", [], "T0", "T0"⟩] (some "ghost"))
        ⟨"m1", "hello", true, "T1", none⟩ none "nid" "T1"
      = StoreState.mk [⟨"s1", "t", [], "T0", "T0"⟩] (some "ghost"))
    ∧ (addMessageToCurrentSession
        (StoreState.mk [⟨"s1", "t", [], "T0", "T0"⟩] (some ""))
        ⟨"m1", "hello", true, "T1", none⟩ none "nid" "T1").sessions.length
      = (StoreState.mk [⟨"s1", "t", [], "T0", "T0"⟩] (some "")).sessions.length + 1 :=
  ⟨(c9_dangling_pointer_no_op
      (StoreState.mk [⟨"s1", "t", [], "T0", "T0"⟩] (some "ghost"))
      ⟨"m1", "hello", true, "T1", none⟩ none "nid" "T1").1 "ghost" (by decide) rfl
      (by decide),
   (c9_dangling_pointer_no_op
      (StoreState.mk [⟨"s1", "t", [], "T0", "T0"⟩] (some ""))
      ⟨"m1", "hello", true, "T1", none⟩ none "nid" "T1").2 rfl⟩

/-- C10 — `handleSave` replaces only the current slide's content with the edited
lines filtered to those containing non-whitespace characters (so the saved content
never contains a blank or whitespace-only line), keeps that slide's title and layout,
and leaves every other slide — and the list length — unchanged. -/
theorem c10_handle_save (slides : List Slide) (i : Nat) (ec : String) (s : Slide)
    (hget : slides[i]? = some s) :
    ((handleSave slides i ec)[i]?
        = some ⟨s.title,
            ((splitOnChar '\n' ec.data).filter
              (fun line => !(jsTrim line).isEmpty)).map String.mk,
            s.layout⟩)
    ∧ (∀ j, j ≠ i → (handleSave slides i ec)[j]? = slides[j]?)
    ∧ (handleSave slides i ec).length = slides.length
    ∧ (∀ line ∈ ((splitOnChar '\n' ec.data).filter
          (fun l => !(jsTrim l).isEmpty)).map String.mk,
        jsTrim line.data ≠ []) := by
  have hlt : i < slides.length := by
    by_contra hge
    rw [List.getElem?_eq_none (Nat.le_of_not_lt hge)] at hget
    exact Option.noConfusion hget
  refine ⟨?_, fun j hj => ?_, ?_, fun line hline => ?_⟩
  · unfold handleSave
    rw [hget]
    exact List.getElem?_set_eq_of_lt _ hlt
  · unfold handleSave
    rw [hget]
    exact List.getElem?_set_ne (fun h => hj h.symm)
  · unfold handleSave
    rw [hget]
    exact List.length_set _ _ _
  · simp only [List.mem_map, List.mem_filter] at hline
    obtain ⟨l, ⟨hmem, hkeep⟩, rfl⟩ := hline
    simpa [List.isEmpty_iff] using hkeep

/-- C10, witness at a two-slide document, editing slide 0 with a blank middle line. -/
theorem c10_handle_save_witness :
    ((handleSave [⟨"T", ["a"], "TITLE_CONTENT"⟩, ⟨"U", ["b"], "TITLE"⟩] 0
        "x\n  \ny")[0]?
      = some ⟨"T", ((splitOnChar '\n' ("x\n  \ny" : String).data).filter
          (fun line => !(jsTrim line).isEmpty)).map String.mk, "TITLE_CONTENT"⟩)
    ∧ (∀ j, j ≠ 0 →
        (handleSave [⟨"T", ["a"], "TITLE_CONTENT"⟩, ⟨"U", ["b"], "TITLE"⟩] 0
            "x\n  \ny")[j]?
          = ([⟨"T", ["a"], "TITLE_CONTENT"⟩, ⟨"U", ["b"], "TITLE"⟩] :
              List Slide)[j]?)
    ∧ (handleSave [⟨"T", ["a"], "TITLE_CONTENT"⟩, ⟨"U", ["b"], "TITLE"⟩] 0
        "x\n  \ny").length
      = ([⟨"T", ["a"], "TITLE_CONTENT"⟩, ⟨"U", ["b"], "TITLE"⟩] : List Slide).length
    ∧ (∀ line ∈ ((splitOnChar '\n' ("x\n  \ny" : String).data).filter
          (fun l => !(jsTrim l).isEmpty)).map String.mk,
        jsTrim line.data ≠ []) :=
  c10_handle_save [⟨"T", ["a"], "TITLE_CONTENT"⟩, ⟨"U", ["b"], "TITLE"⟩] 0
    "x\n  \ny" ⟨"T", ["a"], "TITLE_CONTENT"⟩ rfl

/-- C8 — for every corrupt persisted blob (one whose parse-and-revive fails, i.e.
`loadSessions` throws), `getSessions` returns the empty collection instead of
propagating the failure; the miss (`null` from storage) likewise yields the empty
collection.  `getSessions` is a total function into session lists, so the failure is
never surfaced to the caller as an error. -/
theorem c8_corrupt_storage_degrades (stored : String) (e : String)
    (h : loadSessions stored = Except.error e) :
    getSessions (some stored) = [] ∧ getSessions none = [] := by
  constructor
  · unfold getSessions
    simp only [h]
  · rfl

/-- C8, witness at a blob that is not JSON at all. -/
theorem c8_corrupt_storage_degrades_witness :
    getSessions (some "not valid json") = [] ∧ getSessions none = [] :=
  c8_corrupt_storage_degrades "not valid json" "Unexpected token in JSON" rfl

end MagicSlides
